import Mathlib

/-!
Verification of the identity-verification (Aadhar OTP) authentication core of
the gold-tracker repository.

The definitions below are a shallow embedding of:
  - `src/src/utils/validators.js` (Verhoeff checksum, Aadhar/OTP validation),
  - the security utilities (`RateLimiter`, masking helpers), and
  - `src/src/services/authService.js` (`requestOTP` / `verifyOTP`).

Modelling conventions:
  - Wall-clock time (`Date.now()`) is an explicit `now : Nat` argument (ms).
  - `sha256` is an arbitrary function parameter `hash : String → String`;
    the code only ever compares hash outputs for equality.
  - Random draws (`generateOTP`, `generateSessionToken`) are explicit
    arguments (the drawn values).
  - JavaScript exceptions become `Except AuthError`.
  - The module-level mutable state (`_pendingChallenge` and the two limiter
    instances) becomes an explicit `AuthState` threaded through the calls.
-/

/-- Models the JavaScript regular-expression class backslash-s (whitespace):
tab, LF, VT, FF, CR, space, NBSP, and the Unicode space separators. -/
def isJsWhitespace (c : Char) : Bool :=
  let n := c.toNat
  n = 9 || n = 10 || n = 11 || n = 12 || n = 13 || n = 32 || n = 160 ||
  n = 5760 || (8192 ≤ n && n ≤ 8202) || n = 8232 || n = 8233 || n = 8239 ||
  n = 8287 || n = 12288 || n = 65279

/-- Models `raw.replace(/\s/g, "")`. -/
def stripWS (s : String) : String := ⟨s.data.filter (fun c => !isJsWhitespace c)⟩

/-- An ASCII digit character, as matched by the class backslash-d in the
JavaScript regular expressions of `validators.js`. -/
def isDigitChar (c : Char) : Bool := 48 ≤ c.toNat && c.toNat ≤ 57

/-- Models `Number(c)` for a single ASCII digit character. -/
def charToNum (c : Char) : Nat := c.toNat - 48

-- ─── Verhoeff tables (V_D, V_P from src/src/utils/validators.js) ────────────

/-- The multiplication table `V_D` of `validators.js`, row by row. -/
def V_D : List (List Nat) := [
  [0, 1, 2, 3, 4, 5, 6, 7, 8, 9],
  [1, 2, 3, 4, 0, 6, 7, 8, 9, 5],
  [2, 3, 4, 0, 1, 7, 8, 9, 5, 6],
  [3, 4, 0, 1, 2, 8, 9, 5, 6, 7],
  [4, 0, 1, 2, 3, 9, 5, 6, 7, 8],
  [5, 9, 8, 7, 6, 0, 4, 3, 2, 1],
  [6, 5, 9, 8, 7, 1, 0, 4, 3, 2],
  [7, 6, 5, 9, 8, 2, 1, 0, 4, 3],
  [8, 7, 6, 5, 9, 3, 2, 1, 0, 4],
  [9, 8, 7, 6, 5, 4, 3, 2, 1, 0]]

/-- The permutation table `V_P` of `validators.js` (8 rows × 10 columns). -/
def V_P : List (List Nat) := [
  [0, 1, 2, 3, 4, 5, 6, 7, 8, 9],
  [1, 5, 7, 6, 2, 8, 3, 0, 9, 4],
  [5, 8, 0, 3, 7, 9, 6, 1, 4, 2],
  [8, 9, 1, 6, 0, 4, 3, 5, 2, 7],
  [9, 4, 5, 3, 1, 2, 6, 8, 7, 0],
  [4, 2, 8, 6, 5, 7, 3, 9, 0, 1],
  [2, 7, 9, 3, 8, 0, 6, 4, 1, 5],
  [7, 0, 4, 6, 9, 1, 3, 2, 5, 8]]

/-- `V_D[c][k]` (total, defaulting to 0 outside the table; every use in the
source is guarded so that `c` and `k` are below 10). -/
def vD (c k : Nat) : Nat := (V_D.getD c []).getD k 0

/-- `V_P[i][k]` (total, defaulting to 0 outside the table). -/
def vP (i k : Nat) : Nat := (V_P.getD i []).getD k 0

/-- The accumulator loop of `validateVerhoeff`: starting at position `i` with
accumulator `c`, apply `c = V_D[c][V_P[i % 8][digit]]` for each digit. -/
def verhoeffFrom : Nat → Nat → List Nat → Nat
  | _, c, [] => c
  | i, c, d :: ds => verhoeffFrom (i + 1) (vD c (vP (i % 8) d)) ds

/-- `validateVerhoeff(num)` from `validators.js`: reverse the digit sequence,
fold the table step from accumulator 0, and test the result against 0. -/
def validateVerhoeff (num : String) : Bool :=
  verhoeffFrom 0 0 ((num.data.reverse).map charToNum) == 0

/-- Models the test `/^\d{12}$/.test(num)`. -/
def isTwelveDigits (num : String) : Bool :=
  num.length = 12 && num.data.all isDigitChar

/-- `validateAadhar(raw)` from `validators.js`. `none` is the valid result;
`some msg` carries the exact error message string the code returns. -/
def validateAadhar (raw : String) : Option String :=
  let num := stripWS raw
  if !isTwelveDigits num then some "Aadhar must be exactly 12 digits"
  else if num.data.getD 0 ' ' = '0' ∨ num.data.getD 0 ' ' = '1' then
    some "Invalid Aadhar number"
  else if !validateVerhoeff num then some "Invalid Aadhar checksum"
  else none

/-- `validateOTP(otp)` from `validators.js`: the test `/^\d{6}$/`. -/
def validateOTP (otp : String) : Option String :=
  if otp.length = 6 && otp.data.all isDigitChar then none
  else some "OTP must be 6 digits"

-- ─── Spec-side canonical Verhoeff tables (for the table-faithfulness check) ──

/-- The canonical Verhoeff multiplication table as the Cayley table of the
dihedral group of order 10 (0–4 the rotations, 5–9 the reflections). -/
def canonD (j k : Nat) : Nat :=
  if j < 5 then
    if k < 5 then (j + k) % 5 else (j + k) % 5 + 5
  else
    if k < 5 then (j - k) % 5 + 5 else (j + 5 - k) % 5

/-- The canonical Verhoeff base permutation (row 1 of the permutation table). -/
def basePerm : List Nat := [1, 5, 7, 6, 2, 8, 3, 0, 9, 4]

/-- The canonical Verhoeff permutation table: row `i` is the `i`-th iterate of
the base permutation (row 0 is the identity). -/
def canonP (i k : Nat) : Nat := (fun x => basePerm.getD x 0)^[i] k

/-- The Verhoeff accumulator loop as the specification describes it, using the
canonical tables `canonD`/`canonP` instead of the literal code tables. -/
def specVerhoeffFrom : Nat → Nat → List Nat → Nat
  | _, c, [] => c
  | i, c, d :: ds => specVerhoeffFrom (i + 1) (canonD c (canonP (i % 8) d)) ds

/-- The specification's abstract outcome of full Aadhar validation. -/
inductive SpecAadharResult where
  | ok : SpecAadharResult
  | formatError : SpecAadharResult
  | checksumError : SpecAadharResult
deriving DecidableEq, Repr

/-- Aadhar validation exactly as the specification words it: strip whitespace,
require exactly 12 ASCII digits, require a first digit other than 0 and 1,
then require the canonical Verhoeff checksum (reversed digits, accumulator
from 0) to end at 0. -/
def specValidateAadhar (raw : String) : SpecAadharResult :=
  let num := stripWS raw
  if !(num.length = 12 && num.data.all isDigitChar) then .formatError
  else if num.data.getD 0 ' ' = '0' ∨ num.data.getD 0 ' ' = '1' then .formatError
  else if specVerhoeffFrom 0 0 ((num.data.reverse).map charToNum) ≠ 0 then .checksumError
  else .ok

/-- Classifies the code's `validateAadhar` message into the specification's
error taxonomy (both length/digit and first-digit failures are format
errors; the checksum message is the checksum error). -/
def classifyAadhar : Option String → SpecAadharResult
  | none => .ok
  | some m => if m = "Invalid Aadhar checksum" then .checksumError else .formatError

-- ─── Masking helpers (src security utilities) ───────────────────────────────

/-- `maskAadhar(num)`: full mask unless the input has exactly 12 characters,
otherwise mask all but the last four. -/
def maskAadhar (num : String) : String :=
  if num.length ≠ 12 then "XXXX XXXX XXXX"
  else "XXXX XXXX " ++ String.mk (num.data.drop 8)

/-- `maskMobile(mob)`: keep the first two and last two digits. -/
def maskMobile (mob : String) : String :=
  if mob = "" then "**XXXXXX**"
  else
    let s : String := ⟨mob.data.filter isDigitChar⟩
    String.mk (s.data.take 2) ++ "XXXXXX" ++ String.mk (s.data.drop (s.length - 2))

-- ─── Rate limiter (RateLimiter class of the security utilities) ─────────────

/-- `Math.ceil(a / b)` on non-negative integers. -/
def ceilDiv (a b : Nat) : Nat := (a + b - 1) / b

/-- The value returned by `RateLimiter.consume()`. -/
inductive ConsumeResult where
  | allowed (remaining : Nat) : ConsumeResult
  | blocked (lockSeconds : Nat) : ConsumeResult
deriving DecidableEq, Repr

/-- Whether a `consume()` outcome lets the caller proceed. -/
def ConsumeResult.isAllowed : ConsumeResult → Bool
  | .allowed _ => true
  | .blocked _ => false

/-- The state of one `RateLimiter` instance. -/
structure RateLimiter where
  maxAttempts : Nat
  window : Nat
  attempts : List Nat
  lockUntil : Option Nat
deriving DecidableEq, Repr

/-- The body of `consume()` after the `isLocked()` check: drop attempts
outside the window, record `now`, and lock when the count reaches the
maximum. -/
def RateLimiter.consumeBody (rl : RateLimiter) (now : Nat) :
    ConsumeResult × RateLimiter :=
  let kept := rl.attempts.filter (fun t => decide (now - t < rl.window))
  let tracked := kept ++ [now]
  if rl.maxAttempts ≤ tracked.length then
    (.blocked (ceilDiv rl.window 1000),
     { rl with attempts := [], lockUntil := some (now + rl.window) })
  else
    (.allowed (rl.maxAttempts - tracked.length), { rl with attempts := tracked })

/-- `RateLimiter.consume()`: a still-active lock short-circuits with the
remaining lock seconds (recording nothing); an expired lock is cleared
before the attempt is processed. -/
def RateLimiter.consume (rl : RateLimiter) (now : Nat) :
    ConsumeResult × RateLimiter :=
  match rl.lockUntil with
  | some t =>
    if now < t then (.blocked (ceilDiv (t - now) 1000), rl)
    else ({ rl with lockUntil := none } : RateLimiter).consumeBody now
  | none => rl.consumeBody now

/-- `RateLimiter.reset()`. -/
def RateLimiter.reset (rl : RateLimiter) : RateLimiter :=
  { rl with attempts := [], lockUntil := none }

/-- A sequence of `consume()` calls at the given times, collecting results. -/
def consumeSeq (rl : RateLimiter) : List Nat → List ConsumeResult × RateLimiter
  | [] => ([], rl)
  | t :: ts =>
    let step := rl.consume t
    let rest := consumeSeq step.2 ts
    (step.1 :: rest.1, rest.2)

/-- A fresh limiter instance, as built by `new RateLimiter(max, window)`. -/
def mkRateLimiter (maxAttempts window : Nat) : RateLimiter :=
  { maxAttempts := maxAttempts, window := window, attempts := [], lockUntil := none }

-- ─── Authentication service (src/src/services/authService.js) ───────────────

/-- One record of the demo resident registry. -/
structure Resident where
  name : String
  mobile : String
  pan : String
  dob : String
deriving DecidableEq, Repr

/-- The in-memory `_pendingChallenge` record. -/
structure Challenge where
  aadharHash : String
  otpHash : String
  transactionId : String
  expiresAt : Nat
  resident : Resident
  attempts : Nat
deriving DecidableEq, Repr

/-- The user object returned by a successful `verifyOTP`. `loginAt` keeps the
timestamp the ISO string is rendered from. -/
structure User where
  name : String
  maskedAadhar : String
  pan : String
  dob : String
  connectedBrokers : List String
  sessionToken : String
  loginAt : Nat
deriving DecidableEq, Repr

/-- The descriptor object returned by `requestOTP`. The two return sites build
object literals with different key sets; `none` models an absent key. -/
structure Descriptor where
  maskedMobile : String
  transactionId : String
  demo : Bool
  hint : Option String
  demoOTP : Option String
deriving DecidableEq, Repr

/-- The key set of the descriptor object literal, in source order. -/
def Descriptor.fieldNames (d : Descriptor) : List String :=
  ["maskedMobile", "transactionId", "demo"] ++
  (if d.hint.isSome then ["hint"] else []) ++
  (if d.demoOTP.isSome then ["demoOTP"] else [])

/-- The module-level mutable state of `authService.js`. -/
structure AuthState where
  pendingChallenge : Option Challenge
  requestLimiter : RateLimiter
  verifyLimiter : RateLimiter
deriving DecidableEq, Repr

/-- The errors thrown by `requestOTP`/`verifyOTP`, in place of JavaScript
exceptions. `validation msg` carries a validator message verbatim;
the other constructors stand for the service's own throw sites. -/
inductive AuthError where
  | rateLimited (lockSeconds : Nat) : AuthError
  | validation (msg : String) : AuthError
  | noActiveChallenge : AuthError
  | challengeExpired : AuthError
  | transactionMismatch : AuthError
  | attemptsExhausted : AuthError
  | incorrectCode (remaining : Nat) : AuthError
deriving DecidableEq, Repr

/-- The `DEMO_RESIDENTS` registry as a lookup function. -/
def demoResidents : String → Option Resident := fun num =>
  if num = "499118665246" then
    some ⟨"Rajesh Kumar", "9876543210", "ABCPK1234F", "1985-06-15"⟩
  else if num = "234123412341" then
    some ⟨"Priya Sharma", "8765432109", "XYZPS5678G", "1990-03-22"⟩
  else if num = "234123412348" then
    some ⟨"Demo User", "9000000000", "DEMOQ9999Z", "1995-01-01"⟩
  else none

/-- The initial module state: no pending challenge, request limiter
`new RateLimiter(3, 10 * 60 * 1000)`, verify limiter
`new RateLimiter(5, 30 * 60 * 1000)`. -/
def freshAuthState : AuthState :=
  { pendingChallenge := none,
    requestLimiter := mkRateLimiter 3 (10 * 60 * 1000),
    verifyLimiter := mkRateLimiter 5 (30 * 60 * 1000) }

/-- `requestOTP(aadharRaw)` after the rate-limiter gate. `dir` is the resident
directory, `hash` the sha256 oracle, `pepper` the hashing pepper, `otp` and
`token` the random draws of this call. -/
def requestCore (dir : String → Option Resident) (hash : String → String)
    (pepper otp token : String) (now : Nat) (st : AuthState)
    (num : String) : Except AuthError Descriptor × AuthState :=
  match validateAadhar num with
  | some msg => (.error (.validation msg), st)
  | none =>
    let aadharHash := hash (num ++ pepper)
    match dir num with
    | none =>
      (.ok { maskedMobile := "XXXXXX0000", transactionId := String.mk (token.data.take 16),
             demo := true, hint := some "Use demo Aadhar: 4991 1866 5246",
             demoOTP := none }, st)
    | some resident =>
      let transactionId := String.mk (token.data.take 16)
      let expiresAt := now + 10 * 60 * 1000
      let ch : Challenge :=
        { aadharHash := aadharHash, otpHash := hash (otp ++ transactionId),
          transactionId := transactionId, expiresAt := expiresAt,
          resident := resident, attempts := 0 }
      (.ok { maskedMobile := maskMobile resident.mobile, transactionId := transactionId,
             demo := true, hint := none, demoOTP := some otp },
       { st with pendingChallenge := some ch })

/-- `requestOTP(aadharRaw)` from `authService.js`: strip whitespace, consume
the request-phase limiter, validate, look up the directory, and either
answer the anti-enumeration descriptor or store a fresh challenge. -/
def requestOTP (dir : String → Option Resident) (hash : String → String)
    (pepper otp token : String) (now : Nat) (st : AuthState)
    (aadharRaw : String) : Except AuthError Descriptor × AuthState :=
  let num := stripWS aadharRaw
  match st.requestLimiter.consume now with
  | (.blocked ls, rl) => (.error (.rateLimited ls), { st with requestLimiter := rl })
  | (.allowed _, rl) =>
    requestCore dir hash pepper otp token now { st with requestLimiter := rl } num

/-- The user object built on a successful verification. -/
def mkUser (r : Resident) (sessionToken : String) (now : Nat) : User :=
  { name := r.name, maskedAadhar := maskAadhar "", pan := r.pan, dob := r.dob,
    connectedBrokers := [], sessionToken := sessionToken, loginAt := now }

/-- `verifyOTP(otp, transactionId)` after the rate-limiter gate. -/
def verifyCore (hash : String → String) (sessionToken : String) (now : Nat)
    (st : AuthState) (otp transactionId : String) :
    Except AuthError User × AuthState :=
  match st.pendingChallenge with
  | none => (.error .noActiveChallenge, st)
  | some ch =>
    if ch.expiresAt < now then
      (.error .challengeExpired, { st with pendingChallenge := none })
    else if ch.transactionId ≠ transactionId then
      (.error .transactionMismatch, st)
    else match validateOTP otp with
      | some msg => (.error (.validation msg), st)
      | none =>
        let ch2 : Challenge := { ch with attempts := ch.attempts + 1 }
        if 3 < ch2.attempts then
          (.error .attemptsExhausted, { st with pendingChallenge := none })
        else if hash (otp ++ transactionId) ≠ ch.otpHash then
          (.error (.incorrectCode (3 - ch2.attempts)),
           { st with pendingChallenge := some ch2 })
        else
          (.ok (mkUser ch.resident sessionToken now),
           { st with pendingChallenge := none,
                     verifyLimiter := st.verifyLimiter.reset })

/-- `verifyOTP(otp, transactionId)` from `authService.js`: consume the
verify-phase limiter, then check challenge presence, expiry, transaction
binding, code format, the attempt budget, and finally the code hash. -/
def verifyOTP (hash : String → String) (sessionToken : String) (now : Nat)
    (st : AuthState) (otp transactionId : String) :
    Except AuthError User × AuthState :=
  match st.verifyLimiter.consume now with
  | (.blocked ls, vl) => (.error (.rateLimited ls), { st with verifyLimiter := vl })
  | (.allowed _, vl) =>
    verifyCore hash sessionToken now { st with verifyLimiter := vl } otp transactionId

-- ─── Verhoeff table facts (finite checks) ───────────────────────────────────

/-- Every entry of the multiplication table is a digit. -/
lemma vD_lt : ∀ c < 10, ∀ k < 10, vD c k < 10 := by decide

/-- Every entry of the permutation table is a digit. -/
lemma vP_lt : ∀ i < 8, ∀ k < 10, vP i k < 10 := by decide

/-- Each column of the multiplication table is injective (the table is a
Cayley table, so right translation is a bijection). -/
lemma vD_right_inj : ∀ k < 10, ∀ c1 < 10, ∀ c2 < 10,
    vD c1 k = vD c2 k → c1 = c2 := by decide

/-- Each row of the multiplication table is injective. -/
lemma vD_left_inj : ∀ c < 10, ∀ k1 < 10, ∀ k2 < 10,
    vD c k1 = vD c k2 → k1 = k2 := by decide

/-- Each row of the permutation table is injective. -/
lemma vP_inj : ∀ i < 8, ∀ d1 < 10, ∀ d2 < 10,
    vP i d1 = vP i d2 → d1 = d2 := by decide

/-- The code's multiplication table is the canonical dihedral-group table. -/
lemma vD_eq_canonD : ∀ j < 10, ∀ k < 10, vD j k = canonD j k := by decide

/-- The code's permutation table is the canonical table of iterates of the
Verhoeff base permutation. -/
lemma vP_eq_canonP : ∀ i < 8, ∀ k < 10, vP i k = canonP i k := by decide

set_option maxHeartbeats 1000000 in
/-- The two-step table walk distinguishes every adjacent transposition of two
distinct digits, whatever the accumulator and the position row. -/
lemma vD_transposition_step : ∀ (i : Fin 8) (c a b : Fin 10), a ≠ b →
    vD (vD c.val (vP i.val a.val)) (vP ((i.val + 1) % 8) b.val) ≠
    vD (vD c.val (vP i.val b.val)) (vP ((i.val + 1) % 8) a.val) := by decide

-- ─── Verhoeff fold lemmas ───────────────────────────────────────────────────

/-- Splitting the accumulator fold at a list append. -/
lemma verhoeffFrom_append (xs : List Nat) : ∀ (ys : List Nat) (i c : Nat),
    verhoeffFrom i c (xs ++ ys) = verhoeffFrom (i + xs.length) (verhoeffFrom i c xs) ys := by
  induction xs with
  | nil => intro ys i c; simp [verhoeffFrom]
  | cons d ds ih =>
    intro ys i c
    simp only [List.cons_append, verhoeffFrom, List.length_cons, List.append_eq]
    have h : i + 1 + ds.length = i + (ds.length + 1) := by omega
    rw [ih, h]

/-- The accumulator stays a digit along the fold. -/
lemma verhoeffFrom_lt (ds : List Nat) : ∀ (i c : Nat), c < 10 →
    (∀ d ∈ ds, d < 10) → verhoeffFrom i c ds < 10 := by
  induction ds with
  | nil => intro i c hc _; exact hc
  | cons d ds ih =>
    intro i c hc hds
    have hd : d < 10 := hds d (List.mem_cons_self d ds)
    have hi : i % 8 < 8 := Nat.mod_lt _ (by omega)
    have hp : vP (i % 8) d < 10 := vP_lt _ hi _ hd
    have hstep : vD c (vP (i % 8) d) < 10 := vD_lt _ hc _ hp
    exact ih (i + 1) _ hstep (fun x hx => hds x (List.mem_cons_of_mem _ hx))

/-- The fold is injective in its starting accumulator: two distinct digit
accumulators stay distinct through any digit suffix. -/
lemma verhoeffFrom_inj (ds : List Nat) : ∀ (i c1 c2 : Nat), c1 < 10 → c2 < 10 →
    (∀ d ∈ ds, d < 10) →
    verhoeffFrom i c1 ds = verhoeffFrom i c2 ds → c1 = c2 := by
  induction ds with
  | nil => intro i c1 c2 _ _ _ h; exact h
  | cons d ds ih =>
    intro i c1 c2 hc1 hc2 hds h
    have hd : d < 10 := hds d (List.mem_cons_self d ds)
    have hi : i % 8 < 8 := Nat.mod_lt _ (by omega)
    have hp : vP (i % 8) d < 10 := vP_lt _ hi _ hd
    have hrest : ∀ x ∈ ds, x < 10 := fun x hx => hds x (List.mem_cons_of_mem _ hx)
    have h1 : vD c1 (vP (i % 8) d) < 10 := vD_lt _ hc1 _ hp
    have h2 : vD c2 (vP (i % 8) d) < 10 := vD_lt _ hc2 _ hp
    have := ih (i + 1) _ _ h1 h2 hrest h
    exact vD_right_inj _ hp _ hc1 _ hc2 this

/-- The fold over the code tables agrees with the fold over the canonical
tables on digit inputs. -/
lemma verhoeffFrom_eq_spec (ds : List Nat) : ∀ (i c : Nat), c < 10 →
    (∀ d ∈ ds, d < 10) → verhoeffFrom i c ds = specVerhoeffFrom i c ds := by
  induction ds with
  | nil => intro i c _ _; rfl
  | cons d ds ih =>
    intro i c hc hds
    have hd : d < 10 := hds d (List.mem_cons_self d ds)
    have hi : i % 8 < 8 := Nat.mod_lt _ (by omega)
    have hp : vP (i % 8) d < 10 := vP_lt _ hi _ hd
    have hstep : vD c (vP (i % 8) d) < 10 := vD_lt _ hc _ hp
    simp only [verhoeffFrom, specVerhoeffFrom]
    rw [← vP_eq_canonP _ hi _ hd, ← vD_eq_canonD _ hc _ hp]
    exact ih (i + 1) _ hstep (fun x hx => hds x (List.mem_cons_of_mem _ hx))

/-- Changing one digit of the (reversed) digit sequence changes the final
accumulator. -/
lemma verhoeff_single_error (pre suf : List Nat) (d d' : Nat)
    (hpre : ∀ x ∈ pre, x < 10) (hsuf : ∀ x ∈ suf, x < 10)
    (hd : d < 10) (hd' : d' < 10) (hne : d ≠ d') :
    verhoeffFrom 0 0 (pre ++ d :: suf) ≠ verhoeffFrom 0 0 (pre ++ d' :: suf) := by
  intro h
  rw [verhoeffFrom_append, verhoeffFrom_append] at h
  simp only [Nat.zero_add, verhoeffFrom] at h
  set c := verhoeffFrom 0 0 pre with hc
  have hclt : c < 10 := verhoeffFrom_lt pre 0 0 (by omega) hpre
  have hi : pre.length % 8 < 8 := Nat.mod_lt _ (by omega)
  have hp : vP (pre.length % 8) d < 10 := vP_lt _ hi _ hd
  have hp' : vP (pre.length % 8) d' < 10 := vP_lt _ hi _ hd'
  have hv : vD c (vP (pre.length % 8) d) = vD c (vP (pre.length % 8) d') := by
    have h1 : vD c (vP (pre.length % 8) d) < 10 := vD_lt _ hclt _ hp
    have h2 : vD c (vP (pre.length % 8) d') < 10 := vD_lt _ hclt _ hp'
    exact verhoeffFrom_inj suf _ _ _ h1 h2 hsuf h
  exact hne (vP_inj _ hi _ hd _ hd' (vD_left_inj _ hclt _ hp _ hp' hv))

/-- Swapping two distinct adjacent digits of the (reversed) digit sequence
changes the final accumulator. -/
lemma verhoeff_transposition (pre suf : List Nat) (a b : Nat)
    (hpre : ∀ x ∈ pre, x < 10) (hsuf : ∀ x ∈ suf, x < 10)
    (ha : a < 10) (hb : b < 10) (hne : a ≠ b) :
    verhoeffFrom 0 0 (pre ++ a :: b :: suf) ≠ verhoeffFrom 0 0 (pre ++ b :: a :: suf) := by
  intro h
  rw [verhoeffFrom_append, verhoeffFrom_append] at h
  simp only [Nat.zero_add, verhoeffFrom] at h
  set c := verhoeffFrom 0 0 pre with hc
  have hclt : c < 10 := verhoeffFrom_lt pre 0 0 (by omega) hpre
  have hi : pre.length % 8 < 8 := Nat.mod_lt _ (by omega)
  have hmod : (pre.length + 1) % 8 = (pre.length % 8 + 1) % 8 := by omega
  rw [hmod] at h
  have hab : vD (vD c (vP (pre.length % 8) a)) (vP ((pre.length % 8 + 1) % 8) b) =
      vD (vD c (vP (pre.length % 8) b)) (vP ((pre.length % 8 + 1) % 8) a) := by
    have hpa : vP (pre.length % 8) a < 10 := vP_lt _ hi _ ha
    have hpb : vP (pre.length % 8) b < 10 := vP_lt _ hi _ hb
    have hi2 : (pre.length % 8 + 1) % 8 < 8 := Nat.mod_lt _ (by omega)
    have h1 : vD (vD c (vP (pre.length % 8) a)) (vP ((pre.length % 8 + 1) % 8) b) < 10 :=
      vD_lt _ (vD_lt _ hclt _ hpa) _ (vP_lt _ hi2 _ hb)
    have h2 : vD (vD c (vP (pre.length % 8) b)) (vP ((pre.length % 8 + 1) % 8) a) < 10 :=
      vD_lt _ (vD_lt _ hclt _ hpb) _ (vP_lt _ hi2 _ ha)
    exact verhoeffFrom_inj suf _ _ _ h1 h2 hsuf h
  exact vD_transposition_step ⟨pre.length % 8, hi⟩ ⟨c, hclt⟩ ⟨a, ha⟩ ⟨b, hb⟩
    (fun hf => hne (congrArg Fin.val hf)) hab

-- ─── Digit-character helpers ────────────────────────────────────────────────

/-- A digit character maps to a digit value. -/
lemma charToNum_lt_ten (c : Char) (h : isDigitChar c = true) : charToNum c < 10 := by
  simp only [isDigitChar, Bool.and_eq_true, decide_eq_true_eq] at h
  unfold charToNum
  omega

/-- Distinct digit characters map to distinct digit values. -/
lemma charToNum_inj (a b : Char) (ha : isDigitChar a = true)
    (hb : isDigitChar b = true) (hne : a ≠ b) : charToNum a ≠ charToNum b := by
  simp only [isDigitChar, Bool.and_eq_true, decide_eq_true_eq] at ha hb
  intro h
  apply hne
  have hNat : a.toNat = b.toNat := by unfold charToNum at h; omega
  exact Char.eq_of_val_eq (UInt32.ext hNat)

-- ─── C4: full Aadhar validation refines the specification ───────────────────

/-- Claim C4's theorem. Full Aadhar validation is a pure function agreeing
with the specification's description: strip whitespace, demand exactly 12
ASCII digits and a first digit other than 0 and 1 (format errors), then
demand that the canonical-table Verhoeff fold over the reversed digits ends
at 0 (checksum error). -/
theorem validateAadhar_refines_spec (raw : String) :
    classifyAadhar (validateAadhar raw) = specValidateAadhar raw := by
  unfold validateAadhar specValidateAadhar isTwelveDigits
  set num := stripWS raw with hnum
  by_cases h12 : (num.length = 12 && num.data.all isDigitChar) = true
  · have hdig : ∀ d ∈ (num.data.reverse).map charToNum, d < 10 := by
      intro d hd
      obtain ⟨c, hc, rfl⟩ := List.mem_map.mp hd
      have hcmem : c ∈ num.data := List.mem_reverse.mp hc
      have : isDigitChar c = true := by
        have hall := (Bool.and_eq_true _ _).mp h12 |>.2
        exact List.all_eq_true.mp hall c hcmem
      exact charToNum_lt_ten c this
    have heq : verhoeffFrom 0 0 ((num.data.reverse).map charToNum) =
        specVerhoeffFrom 0 0 ((num.data.reverse).map charToNum) :=
      verhoeffFrom_eq_spec _ 0 0 (by omega) hdig
    simp only [h12, Bool.not_true, Bool.false_eq_true, if_false]
    by_cases hfd : num.data.getD 0 ' ' = '0' ∨ num.data.getD 0 ' ' = '1'
    · rw [if_pos hfd, if_pos hfd]
      decide
    · rw [if_neg hfd, if_neg hfd]
      unfold validateVerhoeff
      rw [heq]
      simp only [List.map_reverse]
      by_cases hz : specVerhoeffFrom 0 0 ((List.map charToNum num.data).reverse) = 0
      · simp [classifyAadhar, hz]
      · simp [classifyAadhar, hz]
  · simp [classifyAadhar, h12]

-- ─── C5: Verhoeff detects single-digit errors and adjacent transpositions ───

/-- `s2` is `s1` (a 12-digit string) with exactly one digit position changed
to a different digit. -/
def SingleDigitChange (s1 s2 : String) : Prop :=
  ∃ u v a b, s1.data = u ++ a :: v ∧ s2.data = u ++ b :: v ∧
    (∀ c ∈ s1.data, isDigitChar c = true) ∧ isDigitChar b = true ∧
    a ≠ b ∧ s1.length = 12

/-- `s2` is `s1` (a 12-digit string) with two adjacent distinct digits
swapped. -/
def AdjacentSwap (s1 s2 : String) : Prop :=
  ∃ u v a b, s1.data = u ++ a :: b :: v ∧ s2.data = u ++ b :: a :: v ∧
    (∀ c ∈ s1.data, isDigitChar c = true) ∧ a ≠ b ∧ s1.length = 12

/-- Claim C5's theorem. If a 12-digit string passes the code's Verhoeff
validation, then changing any single digit to a different digit, or
swapping any two adjacent unequal digits, yields a string the code's
Verhoeff validation rejects. -/
theorem verhoeff_detects_errors (s1 s2 : String)
    (herr : SingleDigitChange s1 s2 ∨ AdjacentSwap s1 s2)
    (hvalid : validateVerhoeff s1 = true) : validateVerhoeff s2 = false := by
  have hv : verhoeffFrom 0 0 ((s1.data.reverse).map charToNum) = 0 := by
    simpa [validateVerhoeff] using hvalid
  suffices hne : verhoeffFrom 0 0 ((s2.data.reverse).map charToNum) ≠ 0 by
    simpa [validateVerhoeff] using hne
  rcases herr with ⟨u, v, a, b, h1, h2, hdig, hbdig, hne, _⟩ |
      ⟨u, v, a, b, h1, h2, hdig, hne, _⟩
  · have hadig : isDigitChar a = true := hdig a (by rw [h1]; simp)
    have hudig : ∀ x ∈ (u.reverse).map charToNum, x < 10 := by
      intro x hx
      obtain ⟨c, hc, rfl⟩ := List.mem_map.mp hx
      exact charToNum_lt_ten c (hdig c (by rw [h1]; simp [List.mem_reverse.mp hc]))
    have hvdig : ∀ x ∈ (v.reverse).map charToNum, x < 10 := by
      intro x hx
      obtain ⟨c, hc, rfl⟩ := List.mem_map.mp hx
      exact charToNum_lt_ten c (hdig c (by rw [h1]; simp [List.mem_reverse.mp hc]))
    have hstep := verhoeff_single_error ((v.reverse).map charToNum)
      ((u.reverse).map charToNum) (charToNum a) (charToNum b) hvdig hudig
      (charToNum_lt_ten a hadig) (charToNum_lt_ten b hbdig)
      (charToNum_inj a b hadig hbdig hne)
    rw [h1] at hv
    rw [h2]
    intro hz
    apply hstep
    have hL1 : (u ++ a :: v).reverse.map charToNum =
        (v.reverse).map charToNum ++ charToNum a :: (u.reverse).map charToNum := by
      simp
    have hL2 : (u ++ b :: v).reverse.map charToNum =
        (v.reverse).map charToNum ++ charToNum b :: (u.reverse).map charToNum := by
      simp
    rw [hL1] at hv
    rw [hL2] at hz
    rw [hv, hz]
  · have hadig : isDigitChar a = true := hdig a (by rw [h1]; simp)
    have hbdig : isDigitChar b = true := hdig b (by rw [h1]; simp)
    have hudig : ∀ x ∈ (u.reverse).map charToNum, x < 10 := by
      intro x hx
      obtain ⟨c, hc, rfl⟩ := List.mem_map.mp hx
      exact charToNum_lt_ten c (hdig c (by rw [h1]; simp [List.mem_reverse.mp hc]))
    have hvdig : ∀ x ∈ (v.reverse).map charToNum, x < 10 := by
      intro x hx
      obtain ⟨c, hc, rfl⟩ := List.mem_map.mp hx
      exact charToNum_lt_ten c (hdig c (by rw [h1]; simp [List.mem_reverse.mp hc]))
    have hstep := verhoeff_transposition ((v.reverse).map charToNum)
      ((u.reverse).map charToNum) (charToNum b) (charToNum a) hvdig hudig
      (charToNum_lt_ten b hbdig) (charToNum_lt_ten a hadig)
      (fun hf => (charToNum_inj a b hadig hbdig hne) hf.symm)
    rw [h1] at hv
    rw [h2]
    intro hz
    apply hstep
    have hL1 : (u ++ a :: b :: v).reverse.map charToNum =
        (v.reverse).map charToNum ++ charToNum b :: charToNum a :: (u.reverse).map charToNum := by
      simp
    have hL2 : (u ++ b :: a :: v).reverse.map charToNum =
        (v.reverse).map charToNum ++ charToNum a :: charToNum b :: (u.reverse).map charToNum := by
      simp
    rw [hL1] at hv
    rw [hL2] at hz
    rw [hv, hz]

/-- Witness for claim C5's theorem at a concrete Verhoeff-valid 12-digit
string: changing its last digit from 6 to 7 breaks the checksum. -/
theorem verhoeff_detects_errors_witness :
    (SingleDigitChange "499118665246" "499118665247" ∨
      AdjacentSwap "499118665246" "499118665247")
    ∧ validateVerhoeff "499118665246" = true
    ∧ validateVerhoeff "499118665247" = false := by
  have hch : SingleDigitChange "499118665246" "499118665247" :=
    ⟨['4', '9', '9', '1', '1', '8', '6', '6', '5', '2', '4'], [], '6', '7',
     rfl, rfl, by decide, by decide, by decide, by decide⟩
  have hv : validateVerhoeff "499118665246" = true := by decide
  exact ⟨Or.inl hch, hv, verhoeff_detects_errors _ _ (Or.inl hch) hv⟩

-- ─── Rate limiter lemmas ────────────────────────────────────────────────────

/-- No lock is active at `now`: any stored `lockUntil` has already passed. -/
def lockInactive (rl : RateLimiter) (now : Nat) : Prop :=
  ∀ t, rl.lockUntil = some t → t ≤ now

/-- Case analysis of `consumeBody`: either the tracked count (kept attempts
plus the new one) reaches the maximum and the limiter locks, or the attempt
is recorded and allowed. -/
lemma consumeBody_spec (m w : Nat) (as : List Nat) (lu : Option Nat) (now : Nat) :
    (m ≤ (as.filter (fun tm => decide (now - tm < w))).length + 1 →
      RateLimiter.consumeBody ⟨m, w, as, lu⟩ now =
        (.blocked (ceilDiv w 1000), ⟨m, w, [], some (now + w)⟩))
    ∧ ((as.filter (fun tm => decide (now - tm < w))).length + 1 < m →
      RateLimiter.consumeBody ⟨m, w, as, lu⟩ now =
        (.allowed (m - ((as.filter (fun tm => decide (now - tm < w))).length + 1)),
         ⟨m, w, as.filter (fun tm => decide (now - tm < w)) ++ [now], lu⟩)) := by
  unfold RateLimiter.consumeBody
  simp only [List.length_append, List.length_cons, List.length_nil, Nat.zero_add]
  constructor
  · intro h
    rw [if_pos h]
  · intro h
    rw [if_neg (by omega)]

/-- With no active lock, `consume` is `consumeBody` on the lock-cleared
limiter. -/
lemma consume_eq_body (m w : Nat) (as : List Nat) (lu : Option Nat) (now : Nat)
    (h : lockInactive ⟨m, w, as, lu⟩ now) :
    RateLimiter.consume ⟨m, w, as, lu⟩ now =
      RateLimiter.consumeBody ⟨m, w, as, none⟩ now := by
  cases lu with
  | none => rfl
  | some t =>
    have ht : t ≤ now := h t rfl
    have hred : RateLimiter.consume ⟨m, w, as, some t⟩ now =
        if now < t then (.blocked (ceilDiv (t - now) 1000), ⟨m, w, as, some t⟩)
        else RateLimiter.consumeBody ⟨m, w, as, none⟩ now := rfl
    rw [hred, if_neg (by omega)]

/-- Starting fresh, a batch of `m` mutually in-window `consume()` calls allows
every call but the last and blocks the last. -/
lemma consumeSeq_locks (w : Nat) (ts : List Nat) : ∀ (as : List Nat) (m : Nat),
    as.length + ts.length = m → ts ≠ [] →
    (∀ x ∈ as ++ ts, ∀ y ∈ as ++ ts, x - y < w) →
    ∃ pre lst, (consumeSeq ⟨m, w, as, none⟩ ts).1 = pre ++ [lst]
      ∧ (∀ r ∈ pre, r.isAllowed = true) ∧ lst.isAllowed = false := by
  induction ts with
  | nil => intro as m _ hne _; exact absurd rfl hne
  | cons t rest ih =>
    intro as m hlen _ hwin
    have htas : t ∈ as ++ t :: rest := by simp
    have hkeep : as.filter (fun tm => decide (t - tm < w)) = as := by
      apply List.filter_eq_self.mpr
      intro a ha
      exact decide_eq_true (hwin t htas a (by simp [ha]))
    obtain ⟨hblock, hallow⟩ := consumeBody_spec m w as none t
    have hcons : RateLimiter.consume ⟨m, w, as, none⟩ t =
        RateLimiter.consumeBody ⟨m, w, as, none⟩ t := rfl
    cases rest with
    | nil =>
      have hm : m ≤ (as.filter (fun tm => decide (t - tm < w))).length + 1 := by
        rw [hkeep]; simp at hlen; omega
      refine ⟨[], .blocked (ceilDiv w 1000), ?_, ?_, rfl⟩
      · simp [consumeSeq, hcons, hblock hm]
      · intro r hr; exact absurd hr (List.not_mem_nil r)
    | cons t2 rest2 =>
      have hlt : (as.filter (fun tm => decide (t - tm < w))).length + 1 < m := by
        rw [hkeep]; simp at hlen; omega
      have hstep := hallow hlt
      rw [hkeep] at hstep
      have hmem : ∀ x ∈ (as ++ [t]) ++ t2 :: rest2, ∀ y ∈ (as ++ [t]) ++ t2 :: rest2,
          x - y < w := by
        intro x hx y hy
        apply hwin <;> simp only [List.append_assoc, List.cons_append,
          List.nil_append] at hx hy <;> assumption
      obtain ⟨pre, lst, hseq, hpre, hlst⟩ := ih (as ++ [t]) m
        (by simp at hlen ⊢; omega) (by simp) hmem
      refine ⟨.allowed (m - (as.length + 1)) :: pre, lst, ?_, ?_, hlst⟩
      · have houter : (consumeSeq ⟨m, w, as, none⟩ (t :: t2 :: rest2)).1 =
            (RateLimiter.consume ⟨m, w, as, none⟩ t).1 ::
              (consumeSeq (RateLimiter.consume ⟨m, w, as, none⟩ t).2 (t2 :: rest2)).1 := rfl
        rw [houter, hcons, hstep]
        show ConsumeResult.allowed (m - (as.length + 1)) ::
            (consumeSeq ⟨m, w, as ++ [t], none⟩ (t2 :: rest2)).1 = _
        rw [hseq]
        rfl
      · intro r hr
        rcases List.mem_cons.mp hr with hr | hr
        · rw [hr]; rfl
        · exact hpre r hr

/-- Dropping stale attempts does not change the body's behaviour when the
filter keeps nothing. -/
lemma consumeBody_stale (m w : Nat) (as : List Nat) (lu : Option Nat) (now : Nat)
    (hfilter : as.filter (fun tm => decide (now - tm < w)) = []) :
    RateLimiter.consumeBody ⟨m, w, as, lu⟩ now =
      RateLimiter.consumeBody ⟨m, w, [], lu⟩ now := by
  unfold RateLimiter.consumeBody
  rw [hfilter, List.filter_nil]

/-- Claim C6's theorem, in four parts mirroring the claim.
1. While `lockUntil` lies in the future, `consume()` returns not-allowed
   with the remaining lock seconds and records no attempt (the state is
   returned unchanged).
2. With no active lock, `consume()` drops the timestamps older than the
   window and appends `now`; if the tracked count reaches `maxAttempts` it
   locks until `now + window`, clears the sequence and reports the full
   window in seconds, otherwise it allows with the remaining count.
3. Hence `maxAttempts` calls within one window on a fresh limiter always
   allow every call before the last and lock exactly on the
   `maxAttempts`-th call.
4. A call made after the window has fully elapsed since every recorded
   attempt is never affected by those attempts: it returns the same result
   as on a limiter without them (and, with no active lock, even the same
   successor state). -/
theorem rateLimiter_consume_spec (rl : RateLimiter) (now : Nat) :
    (∀ t, rl.lockUntil = some t → now < t →
      rl.consume now = (.blocked (ceilDiv (t - now) 1000), rl))
    ∧ (lockInactive rl now →
      (rl.maxAttempts ≤ (rl.attempts.filter (fun tm => decide (now - tm < rl.window))).length + 1 →
        rl.consume now = (.blocked (ceilDiv rl.window 1000),
          { rl with attempts := [], lockUntil := some (now + rl.window) }))
      ∧ ((rl.attempts.filter (fun tm => decide (now - tm < rl.window))).length + 1 < rl.maxAttempts →
        rl.consume now = (.allowed (rl.maxAttempts -
            ((rl.attempts.filter (fun tm => decide (now - tm < rl.window))).length + 1)),
          { rl with attempts := rl.attempts.filter (fun tm => decide (now - tm < rl.window)) ++ [now],
                    lockUntil := none })))
    ∧ (∀ ts : List Nat, ts.length = rl.maxAttempts → ts ≠ [] →
      (∀ x ∈ ts, ∀ y ∈ ts, x - y < rl.window) →
      ∃ pre lst, (consumeSeq (mkRateLimiter rl.maxAttempts rl.window) ts).1 = pre ++ [lst]
        ∧ (∀ r ∈ pre, r.isAllowed = true) ∧ lst.isAllowed = false)
    ∧ ((∀ t ∈ rl.attempts, rl.window ≤ now - t) →
      ((rl.consume now).1 = (({ rl with attempts := [] } : RateLimiter).consume now).1
        ∧ (lockInactive rl now →
          rl.consume now = ({ rl with attempts := [] } : RateLimiter).consume now))) := by
  obtain ⟨m, w, as, lu⟩ := rl
  refine ⟨?_, ?_, ?_, ?_⟩
  · intro t ht hlt
    simp only at ht
    subst ht
    have hred : RateLimiter.consume ⟨m, w, as, some t⟩ now =
        if now < t then (.blocked (ceilDiv (t - now) 1000), ⟨m, w, as, some t⟩)
        else RateLimiter.consumeBody ⟨m, w, as, none⟩ now := rfl
    rw [hred, if_pos hlt]
  · intro hin
    rw [consume_eq_body m w as lu now hin]
    exact ⟨fun h => (consumeBody_spec m w as none now).1 h,
           fun h => (consumeBody_spec m w as none now).2 h⟩
  · intro ts hlen hne hwin
    exact consumeSeq_locks w ts [] m (by simpa using hlen) hne (by simpa using hwin)
  · intro hstale
    have hfilter : as.filter (fun tm => decide (now - tm < w)) = [] := by
      rw [List.filter_eq_nil_iff]
      intro a ha
      simpa using Nat.not_lt.mpr (hstale a ha)
    constructor
    · cases lu with
      | none =>
        show (RateLimiter.consumeBody ⟨m, w, as, none⟩ now).1 =
          (RateLimiter.consumeBody ⟨m, w, [], none⟩ now).1
        rw [consumeBody_stale m w as none now hfilter]
      | some t =>
        by_cases hlt : now < t
        · have h1 : RateLimiter.consume ⟨m, w, as, some t⟩ now =
              (.blocked (ceilDiv (t - now) 1000), ⟨m, w, as, some t⟩) := by
            have hred : RateLimiter.consume ⟨m, w, as, some t⟩ now =
                if now < t then (.blocked (ceilDiv (t - now) 1000), ⟨m, w, as, some t⟩)
                else RateLimiter.consumeBody ⟨m, w, as, none⟩ now := rfl
            rw [hred, if_pos hlt]
          have h2 : RateLimiter.consume ⟨m, w, [], some t⟩ now =
              (.blocked (ceilDiv (t - now) 1000), ⟨m, w, [], some t⟩) := by
            have hred : RateLimiter.consume ⟨m, w, [], some t⟩ now =
                if now < t then (.blocked (ceilDiv (t - now) 1000), ⟨m, w, [], some t⟩)
                else RateLimiter.consumeBody ⟨m, w, [], none⟩ now := rfl
            rw [hred, if_pos hlt]
          rw [h1, h2]
        · have hin : lockInactive ⟨m, w, as, some t⟩ now := by
            intro t2 ht2
            simp only [Option.some.injEq] at ht2
            omega
          have hin2 : lockInactive ⟨m, w, ([] : List Nat), some t⟩ now := by
            intro t2 ht2
            simp only [Option.some.injEq] at ht2
            omega
          rw [consume_eq_body m w as (some t) now hin,
              consume_eq_body m w [] (some t) now hin2,
              consumeBody_stale m w as none now hfilter]
    · intro hin
      have hin2 : lockInactive ⟨m, w, ([] : List Nat), lu⟩ now := fun t ht => hin t ht
      rw [consume_eq_body m w as lu now hin,
          consume_eq_body m w [] lu now hin2,
          consumeBody_stale m w as none now hfilter]

/-- Witness for claim C6's theorem: a limiter locked until time 1000,
consulted at time 5, reports 1 second of remaining lock (the ceiling of
995 ms) and keeps its state. -/
theorem rateLimiter_consume_spec_witness :
    (⟨3, 600000, [], some 1000⟩ : RateLimiter).lockUntil = some 1000 ∧ (5 : Nat) < 1000 ∧
    RateLimiter.consume ⟨3, 600000, [], some 1000⟩ 5 =
      (.blocked 1, ⟨3, 600000, [], some 1000⟩) :=
  ⟨rfl, by decide,
    (rateLimiter_consume_spec ⟨3, 600000, [], some 1000⟩ 5).1 1000 rfl (by decide)⟩

-- ─── Auth service unfolding lemmas ──────────────────────────────────────────

/-- An `isAllowed` consume outcome is an `allowed` constructor. -/
lemma consume_allowed_elim (rl : RateLimiter) (now : Nat)
    (h : ((rl.consume now).1).isAllowed = true) :
    ∃ r rl2, rl.consume now = (.allowed r, rl2) := by
  rcases hc : rl.consume now with ⟨res, rl2⟩
  cases res with
  | allowed r => exact ⟨r, rl2, rfl⟩
  | blocked ls => rw [hc] at h; exact absurd h (by simp [ConsumeResult.isAllowed])

/-- `consume` never changes the limiter's parameters. -/
lemma consume_params (rl : RateLimiter) (now : Nat) :
    ((rl.consume now).2).maxAttempts = rl.maxAttempts ∧
    ((rl.consume now).2).window = rl.window := by
  obtain ⟨m, w, as, lu⟩ := rl
  unfold RateLimiter.consume RateLimiter.consumeBody
  cases lu with
  | none => dsimp only; split <;> exact ⟨rfl, rfl⟩
  | some t => dsimp only; split <;> [exact ⟨rfl, rfl⟩; (split <;> exact ⟨rfl, rfl⟩)]

/-- `verifyOTP` with an allowing limiter runs the core on the consumed
state. -/
lemma verifyOTP_allowed (hash : String → String) (tok : String) (now : Nat)
    (st : AuthState) (otp tx : String) (r : Nat) (vl : RateLimiter)
    (hc : st.verifyLimiter.consume now = (.allowed r, vl)) :
    verifyOTP hash tok now st otp tx =
      verifyCore hash tok now { st with verifyLimiter := vl } otp tx := by
  unfold verifyOTP
  rw [hc]

/-- `verifyCore` without a pending challenge. -/
lemma verifyCore_noChallenge (hash : String → String) (tok : String) (now : Nat)
    (st : AuthState) (otp tx : String) (hp : st.pendingChallenge = none) :
    verifyCore hash tok now st otp tx = (.error .noActiveChallenge, st) := by
  unfold verifyCore
  rw [hp]

/-- `verifyCore` on an expired challenge. -/
lemma verifyCore_expired (hash : String → String) (tok : String) (now : Nat)
    (st : AuthState) (ch : Challenge) (otp tx : String)
    (hp : st.pendingChallenge = some ch) (hx : ch.expiresAt < now) :
    verifyCore hash tok now st otp tx =
      (.error .challengeExpired, { st with pendingChallenge := none }) := by
  unfold verifyCore
  rw [hp]
  simp only [if_pos hx]

/-- `verifyCore` on a transaction-id mismatch. -/
lemma verifyCore_mismatch (hash : String → String) (tok : String) (now : Nat)
    (st : AuthState) (ch : Challenge) (otp tx : String)
    (hp : st.pendingChallenge = some ch) (hx : ¬ ch.expiresAt < now)
    (htx : ch.transactionId ≠ tx) :
    verifyCore hash tok now st otp tx = (.error .transactionMismatch, st) := by
  unfold verifyCore
  rw [hp]
  simp only [if_neg hx, if_pos htx]

/-- `verifyCore` on a malformed code. -/
lemma verifyCore_badFormat (hash : String → String) (tok : String) (now : Nat)
    (st : AuthState) (ch : Challenge) (otp tx msg : String)
    (hp : st.pendingChallenge = some ch) (hx : ¬ ch.expiresAt < now)
    (htx : ch.transactionId = tx) (hfmt : validateOTP otp = some msg) :
    verifyCore hash tok now st otp tx = (.error (.validation msg), st) := by
  unfold verifyCore
  rw [hp]
  simp only [if_neg hx, htx, ne_eq, not_true_eq_false, if_neg, if_false, hfmt]

/-- `verifyCore` when the attempt budget is already spent. -/
lemma verifyCore_exhausted (hash : String → String) (tok : String) (now : Nat)
    (st : AuthState) (ch : Challenge) (otp tx : String)
    (hp : st.pendingChallenge = some ch) (hx : ¬ ch.expiresAt < now)
    (htx : ch.transactionId = tx) (hfmt : validateOTP otp = none)
    (hatt : 3 ≤ ch.attempts) :
    verifyCore hash tok now st otp tx =
      (.error .attemptsExhausted, { st with pendingChallenge := none }) := by
  unfold verifyCore
  rw [hp]
  simp only [if_neg hx, htx, ne_eq, not_true_eq_false, if_false, hfmt]
  rw [if_pos (by omega)]

/-- `verifyCore` on a wrong code within the attempt budget. -/
lemma verifyCore_incorrect (hash : String → String) (tok : String) (now : Nat)
    (st : AuthState) (ch : Challenge) (otp tx : String)
    (hp : st.pendingChallenge = some ch) (hx : ¬ ch.expiresAt < now)
    (htx : ch.transactionId = tx) (hfmt : validateOTP otp = none)
    (hatt : ch.attempts < 3) (hh : hash (otp ++ tx) ≠ ch.otpHash) :
    verifyCore hash tok now st otp tx =
      (.error (.incorrectCode (3 - (ch.attempts + 1))),
       { st with pendingChallenge := some { ch with attempts := ch.attempts + 1 } }) := by
  unfold verifyCore
  rw [hp]
  simp only [if_neg hx, htx, ne_eq, not_true_eq_false, if_false, hfmt]
  rw [if_neg (by simp; omega), if_pos hh]

/-- `verifyCore` on the correct code within the attempt budget. -/
lemma verifyCore_success (hash : String → String) (tok : String) (now : Nat)
    (st : AuthState) (ch : Challenge) (otp tx : String)
    (hp : st.pendingChallenge = some ch) (hx : ¬ ch.expiresAt < now)
    (htx : ch.transactionId = tx) (hfmt : validateOTP otp = none)
    (hatt : ch.attempts < 3) (hh : hash (otp ++ tx) = ch.otpHash) :
    verifyCore hash tok now st otp tx =
      (.ok (mkUser ch.resident tok now),
       { st with pendingChallenge := none,
                 verifyLimiter := st.verifyLimiter.reset }) := by
  unfold verifyCore
  rw [hp]
  simp only [if_neg hx, htx, ne_eq, not_true_eq_false, if_false, hfmt]
  rw [if_neg (by simp; omega), if_neg (by simp [hh])]

-- ─── C1: round-trip of request / verify ─────────────────────────────────────

/-- Claim C1's theorem. For a state holding a pending challenge (unexpired,
fewer than three prior attempts, verify limiter allowing and able to allow
once more), `verifyOTP code tx` succeeds with the bound profile exactly
when `tx` is the stored transaction id, the code is 6 digits, and
`hash(code ++ tx)` equals the stored `otpHash`; every other `(code, tx)`
pair fails with some error; and on success the challenge is discarded, so
repeating the very same call immediately fails with `NoActiveChallenge`. -/
theorem verifyOTP_roundtrip (hash : String → String) (tok tok2 : String)
    (st : AuthState) (ch : Challenge) (now : Nat) (code tx : String)
    (hpend : st.pendingChallenge = some ch)
    (hexp : now ≤ ch.expiresAt)
    (hatt : ch.attempts < 3)
    (hallow : ((st.verifyLimiter.consume now).1).isAllowed = true)
    (hmax : 2 ≤ st.verifyLimiter.maxAttempts) :
    ((verifyOTP hash tok now st code tx).1 = .ok (mkUser ch.resident tok now)
      ↔ (tx = ch.transactionId ∧ validateOTP code = none ∧ hash (code ++ tx) = ch.otpHash))
    ∧ (¬(tx = ch.transactionId ∧ validateOTP code = none ∧ hash (code ++ tx) = ch.otpHash) →
      ∃ e, (verifyOTP hash tok now st code tx).1 = .error e)
    ∧ (tx = ch.transactionId → validateOTP code = none → hash (code ++ tx) = ch.otpHash →
      (verifyOTP hash tok now st code tx).2.pendingChallenge = none
      ∧ (verifyOTP hash tok2 now (verifyOTP hash tok now st code tx).2 code tx).1 =
          .error .noActiveChallenge) := by
  obtain ⟨r, vl, hc⟩ := consume_allowed_elim _ _ hallow
  have hv := verifyOTP_allowed hash tok now st code tx r vl hc
  have hpend1 : ({ st with verifyLimiter := vl } : AuthState).pendingChallenge = some ch := hpend
  have hx : ¬ ch.expiresAt < now := by omega
  by_cases htx : ch.transactionId = tx
  · cases hfmt : validateOTP code with
    | some msg =>
      have hb := verifyCore_badFormat hash tok now _ ch code tx msg hpend1 hx htx hfmt
      rw [hv, hb]
      refine ⟨⟨fun h => absurd h (by simp), fun hcon => absurd hcon.2.1 (by simp)⟩,
        fun _ => ⟨.validation msg, rfl⟩,
        fun _ hf _ => absurd hf (by simp)⟩
    | none =>
      by_cases hh : hash (code ++ tx) = ch.otpHash
      · have hs := verifyCore_success hash tok now _ ch code tx hpend1 hx htx hfmt hatt hh
        rw [hv, hs]
        refine ⟨⟨fun _ => ⟨htx.symm, rfl, hh⟩, fun _ => rfl⟩,
          fun hcon => absurd ⟨htx.symm, rfl, hh⟩ hcon, ?_⟩
        intro _ _ _
        obtain ⟨vlm, vlw, vla, vlu⟩ := vl
        refine ⟨rfl, ?_⟩
        show (verifyOTP hash tok2 now
            { pendingChallenge := none, requestLimiter := st.requestLimiter,
              verifyLimiter := ⟨vlm, vlw, [], none⟩ } code tx).1 = .error .noActiveChallenge
        have hp := (consume_params st.verifyLimiter now).1
        rw [hc] at hp
        simp only at hp
        have hvlm : 2 ≤ vlm := by omega
        have hc2 : RateLimiter.consume ⟨vlm, vlw, [], none⟩ now =
            (.allowed (vlm - 1), ⟨vlm, vlw, [now], none⟩) := by
          have hb2 := (consumeBody_spec vlm vlw [] none now).2
            (by simp only [List.filter_nil, List.length_nil]; omega)
          simpa using hb2
        rw [verifyOTP_allowed hash tok2 now _ code tx (vlm - 1) ⟨vlm, vlw, [now], none⟩ hc2,
            verifyCore_noChallenge hash tok2 now _ code tx rfl]
      · have hi := verifyCore_incorrect hash tok now _ ch code tx hpend1 hx htx hfmt hatt hh
        rw [hv, hi]
        refine ⟨⟨fun h => absurd h (by simp), fun hcon => absurd hcon.2.2 hh⟩,
          fun _ => ⟨.incorrectCode (3 - (ch.attempts + 1)), rfl⟩,
          fun _ _ hf => absurd hf hh⟩
  · have hm := verifyCore_mismatch hash tok now _ ch code tx hpend1 hx htx
    rw [hv, hm]
    exact ⟨⟨fun h => absurd h (by simp), fun hcon => absurd hcon.1.symm htx⟩,
      fun _ => ⟨.transactionMismatch, rfl⟩,
      fun hf _ _ => absurd hf.symm htx⟩

/-- Witness data for claim C1: a state holding one fresh pending challenge. -/
def chC1 : Challenge :=
  { aadharHash := "ah", otpHash := "123456tx12", transactionId := "tx12",
    expiresAt := 100, resident := ⟨"R", "9876543210", "P", "D"⟩, attempts := 0 }

/-- Witness state for claim C1. -/
def stC1 : AuthState :=
  { pendingChallenge := some chC1, requestLimiter := mkRateLimiter 3 600000,
    verifyLimiter := mkRateLimiter 5 1800000 }

/-- Witness for claim C1's theorem: with the identity hash, the stored hash
`"123456tx12"` is matched by code `"123456"` and transaction `"tx12"`, and
the call returns the bound profile. -/
theorem verifyOTP_roundtrip_witness :
    (verifyOTP (fun s => s) "tok" 50 stC1 "123456" "tx12").1 =
      .ok (mkUser ⟨"R", "9876543210", "P", "D"⟩ "tok" 50) := by
  have h := verifyOTP_roundtrip (fun s => s) "tok" "tok2" stC1 chC1 50 "123456" "tx12"
    rfl (by decide) (by decide) (by decide) (by decide)
  exact h.1.mpr ⟨rfl, by decide, rfl⟩

-- ─── C2: expiry boundary ────────────────────────────────────────────────────

/-- Claim C2's theorem (amended). With a pending challenge and an allowing
verify limiter, `verifyOTP` fails with `ChallengeExpired` and discards the
challenge exactly when `now` is strictly past `expiresAt`; at
`now = expiresAt` the challenge is not treated as expired (the strict
comparison `Date.now() > expiresAt` keeps it verifiable at the boundary). -/
theorem verifyOTP_expiry_boundary (hash : String → String) (tok : String)
    (st : AuthState) (ch : Challenge) (now : Nat) (code tx : String)
    (hpend : st.pendingChallenge = some ch)
    (hallow : ((st.verifyLimiter.consume now).1).isAllowed = true) :
    (ch.expiresAt < now →
      (verifyOTP hash tok now st code tx).1 = .error .challengeExpired
      ∧ (verifyOTP hash tok now st code tx).2.pendingChallenge = none)
    ∧ (now ≤ ch.expiresAt →
      (verifyOTP hash tok now st code tx).1 ≠ .error .challengeExpired) := by
  obtain ⟨r, vl, hc⟩ := consume_allowed_elim _ _ hallow
  have hv := verifyOTP_allowed hash tok now st code tx r vl hc
  have hpend1 : ({ st with verifyLimiter := vl } : AuthState).pendingChallenge = some ch := hpend
  constructor
  · intro hlt
    rw [hv, verifyCore_expired hash tok now _ ch code tx hpend1 hlt]
    exact ⟨rfl, rfl⟩
  · intro hle
    have hx : ¬ ch.expiresAt < now := by omega
    rw [hv]
    by_cases htx : ch.transactionId = tx
    · cases hfmt : validateOTP code with
      | some msg =>
        rw [verifyCore_badFormat hash tok now _ ch code tx msg hpend1 hx htx hfmt]
        simp
      | none =>
        by_cases hatt : ch.attempts < 3
        · by_cases hh : hash (code ++ tx) = ch.otpHash
          · rw [verifyCore_success hash tok now _ ch code tx hpend1 hx htx hfmt hatt hh]
            simp
          · rw [verifyCore_incorrect hash tok now _ ch code tx hpend1 hx htx hfmt hatt hh]
            simp
        · rw [verifyCore_exhausted hash tok now _ ch code tx hpend1 hx htx hfmt (by omega)]
          simp
    · rw [verifyCore_mismatch hash tok now _ ch code tx hpend1 hx htx]
      simp

/-- Counterexample to claim C2 as stated: a challenge whose `expiresAt` is
exactly the current time 77 is still verifiable — the call returns the
bound profile instead of failing with `ChallengeExpired`. -/
theorem verifyOTP_expiry_boundary_counterexample :
    (verifyOTP (fun s => s) "tok" 77
      { pendingChallenge := some
          { aadharHash := "a", otpHash := "654321tx", transactionId := "tx",
            expiresAt := 77, resident := ⟨"R", "9876543210", "P", "D"⟩, attempts := 0 },
        requestLimiter := mkRateLimiter 3 600000,
        verifyLimiter := mkRateLimiter 5 1800000 }
      "654321" "tx").1 =
      .ok (mkUser ⟨"R", "9876543210", "P", "D"⟩ "tok" 77)
    ∧ (verifyOTP (fun s => s) "tok" 77
      { pendingChallenge := some
          { aadharHash := "a", otpHash := "654321tx", transactionId := "tx",
            expiresAt := 77, resident := ⟨"R", "9876543210", "P", "D"⟩, attempts := 0 },
        requestLimiter := mkRateLimiter 3 600000,
        verifyLimiter := mkRateLimiter 5 1800000 }
      "654321" "tx").1 ≠ .error .challengeExpired := by
  constructor
  · rfl
  · intro h
    exact Except.noConfusion h

/-- Witness state for claim C2: a challenge already past its expiry. -/
def stC2 : AuthState :=
  { pendingChallenge := some
      { aadharHash := "a", otpHash := "654321tx", transactionId := "tx",
        expiresAt := 100, resident := ⟨"R", "9876543210", "P", "D"⟩, attempts := 0 },
    requestLimiter := mkRateLimiter 3 600000,
    verifyLimiter := mkRateLimiter 5 1800000 }

/-- Witness for claim C2's theorem: strictly past expiry (time 200 against
`expiresAt = 100`) the call fails with `ChallengeExpired` even though the
submitted code is the correct one. -/
theorem verifyOTP_expiry_boundary_witness :
    (verifyOTP (fun s => s) "tok" 200 stC2 "654321" "tx").1 = .error .challengeExpired := by
  have h := verifyOTP_expiry_boundary (fun s => s) "tok" stC2
    { aadharHash := "a", otpHash := "654321tx", transactionId := "tx",
      expiresAt := 100, resident := ⟨"R", "9876543210", "P", "D"⟩, attempts := 0 }
    200 "654321" "tx" rfl (by decide)
  exact (h.1 (by decide)).1

-- ─── C3: attempt budget ─────────────────────────────────────────────────────

/-- Claim C3's theorem. For a verify call that reaches the attempt-counting
step (pending challenge, limiter allowing, unexpired, matching transaction
id, well-formed code): with `a` prior attempts and a wrong code, attempts
`a = 0, 1, 2` (the 1st, 2nd, 3rd failure) fail with `IncorrectCode`
reporting `2 - a` (2, 1, 0) remaining and keep the challenge alive with
the incremented counter, while with `a = 3` (the 4th attempt, incrementing
to 4 > 3) the challenge is discarded and the call fails with
`AttemptsExhausted`. -/
theorem verifyOTP_attempt_budget (hash : String → String) (tok : String)
    (st : AuthState) (ch : Challenge) (now : Nat) (code tx : String)
    (hpend : st.pendingChallenge = some ch)
    (hallow : ((st.verifyLimiter.consume now).1).isAllowed = true)
    (hexp : now ≤ ch.expiresAt)
    (htx : ch.transactionId = tx)
    (hfmt : validateOTP code = none) :
    (ch.attempts < 3 → hash (code ++ tx) ≠ ch.otpHash →
      (verifyOTP hash tok now st code tx).1 = .error (.incorrectCode (2 - ch.attempts))
      ∧ (verifyOTP hash tok now st code tx).2.pendingChallenge =
          some { ch with attempts := ch.attempts + 1 })
    ∧ (ch.attempts = 3 →
      (verifyOTP hash tok now st code tx).1 = .error .attemptsExhausted
      ∧ (verifyOTP hash tok now st code tx).2.pendingChallenge = none) := by
  obtain ⟨r, vl, hc⟩ := consume_allowed_elim _ _ hallow
  have hv := verifyOTP_allowed hash tok now st code tx r vl hc
  have hpend1 : ({ st with verifyLimiter := vl } : AuthState).pendingChallenge = some ch := hpend
  have hx : ¬ ch.expiresAt < now := by omega
  constructor
  · intro hatt hh
    rw [hv, verifyCore_incorrect hash tok now _ ch code tx hpend1 hx htx hfmt hatt hh]
    refine ⟨?_, rfl⟩
    have : 3 - (ch.attempts + 1) = 2 - ch.attempts := by omega
    rw [this]
  · intro hatt
    rw [hv, verifyCore_exhausted hash tok now _ ch code tx hpend1 hx htx hfmt (by omega)]
    exact ⟨rfl, rfl⟩

/-- Witness state for claim C3: a challenge with two failed attempts
already recorded. -/
def stC3 : AuthState :=
  { pendingChallenge := some
      { aadharHash := "a", otpHash := "654321tx", transactionId := "tx",
        expiresAt := 100, resident := ⟨"R", "9876543210", "P", "D"⟩, attempts := 2 },
    requestLimiter := mkRateLimiter 3 600000,
    verifyLimiter := mkRateLimiter 5 1800000 }

/-- Witness for claim C3's theorem: the third failed attempt (two prior
failures) reports 0 attempts remaining and keeps the challenge alive with
`attempts = 3`. -/
theorem verifyOTP_attempt_budget_witness :
    (verifyOTP (fun s => s) "tok" 50 stC3 "999999" "tx").1 =
      .error (.incorrectCode 0)
    ∧ (verifyOTP (fun s => s) "tok" 50 stC3 "999999" "tx").2.pendingChallenge =
      some { aadharHash := "a", otpHash := "654321tx", transactionId := "tx",
             expiresAt := 100, resident := ⟨"R", "9876543210", "P", "D"⟩, attempts := 3 } := by
  have h := verifyOTP_attempt_budget (fun s => s) "tok" stC3
    { aadharHash := "a", otpHash := "654321tx", transactionId := "tx",
      expiresAt := 100, resident := ⟨"R", "9876543210", "P", "D"⟩, attempts := 2 }
    50 "999999" "tx" rfl (by decide) (by decide) rfl (by decide)
  exact h.1 (by decide) (by decide)

-- ─── Request path unfolding lemmas ──────────────────────────────────────────

/-- `requestOTP` with a blocking limiter throws `RateLimited` and records only
the limiter update. -/
lemma requestOTP_blocked (dir : String → Option Resident) (hash : String → String)
    (pepper otp token : String) (now : Nat) (st : AuthState) (raw : String)
    (ls : Nat) (rl : RateLimiter)
    (hc : st.requestLimiter.consume now = (.blocked ls, rl)) :
    requestOTP dir hash pepper otp token now st raw =
      (.error (.rateLimited ls), { st with requestLimiter := rl }) := by
  unfold requestOTP
  rw [hc]

/-- `requestOTP` with an allowing limiter runs the core on the consumed
state. -/
lemma requestOTP_allowed (dir : String → Option Resident) (hash : String → String)
    (pepper otp token : String) (now : Nat) (st : AuthState) (raw : String)
    (r : Nat) (rl : RateLimiter)
    (hc : st.requestLimiter.consume now = (.allowed r, rl)) :
    requestOTP dir hash pepper otp token now st raw =
      requestCore dir hash pepper otp token now { st with requestLimiter := rl }
        (stripWS raw) := by
  unfold requestOTP
  rw [hc]

/-- `requestCore` propagates a validation failure unchanged. -/
lemma requestCore_invalid (dir : String → Option Resident) (hash : String → String)
    (pepper otp token : String) (now : Nat) (st : AuthState) (num msg : String)
    (hv : validateAadhar num = some msg) :
    requestCore dir hash pepper otp token now st num =
      (.error (.validation msg), st) := by
  unfold requestCore
  rw [hv]

/-- `requestCore` on a valid but unregistered id: anti-enumeration descriptor,
no state change beyond the already-consumed limiter. -/
lemma requestCore_unknown (dir : String → Option Resident) (hash : String → String)
    (pepper otp token : String) (now : Nat) (st : AuthState) (num : String)
    (hv : validateAadhar num = none) (hd : dir num = none) :
    requestCore dir hash pepper otp token now st num =
      (.ok { maskedMobile := "XXXXXX0000", transactionId := String.mk (token.data.take 16),
             demo := true, hint := some "Use demo Aadhar: 4991 1866 5246", demoOTP := none },
       st) := by
  unfold requestCore
  rw [hv, hd]

/-- `requestCore` on a valid registered id: stores the fresh challenge and
returns the success descriptor. -/
lemma requestCore_known (dir : String → Option Resident) (hash : String → String)
    (pepper otp token : String) (now : Nat) (st : AuthState) (num : String)
    (res : Resident) (hv : validateAadhar num = none) (hd : dir num = some res) :
    requestCore dir hash pepper otp token now st num =
      (.ok { maskedMobile := maskMobile res.mobile,
             transactionId := String.mk (token.data.take 16), demo := true,
             hint := none, demoOTP := some otp },
       { st with pendingChallenge := some {
           aadharHash := hash (num ++ pepper),
           otpHash := hash (otp ++ String.mk (token.data.take 16)),
           transactionId := String.mk (token.data.take 16),
           expiresAt := now + 10 * 60 * 1000, resident := res, attempts := 0 } }) := by
  unfold requestCore
  rw [hv, hd]

/-- `requestCore` never touches the request limiter. -/
lemma requestCore_requestLimiter (dir : String → Option Resident) (hash : String → String)
    (pepper otp token : String) (now : Nat) (st : AuthState) (num : String) :
    (requestCore dir hash pepper otp token now st num).2.requestLimiter =
      st.requestLimiter := by
  rcases hv : validateAadhar num with _ | msg
  · rcases hd : dir num with _ | res
    · rw [requestCore_unknown dir hash pepper otp token now st num hv hd]
    · rw [requestCore_known dir hash pepper otp token now st num res hv hd]
  · rw [requestCore_invalid dir hash pepper otp token now st num msg hv]

/-- `requestCore` never touches the verify limiter. -/
lemma requestCore_verifyLimiter (dir : String → Option Resident) (hash : String → String)
    (pepper otp token : String) (now : Nat) (st : AuthState) (num : String) :
    (requestCore dir hash pepper otp token now st num).2.verifyLimiter =
      st.verifyLimiter := by
  rcases hv : validateAadhar num with _ | msg
  · rcases hd : dir num with _ | res
    · rw [requestCore_unknown dir hash pepper otp token now st num hv hd]
    · rw [requestCore_known dir hash pepper otp token now st num res hv hd]
  · rw [requestCore_invalid dir hash pepper otp token now st num msg hv]

/-- The request limiter after a `requestOTP` call is exactly the consumed
limiter, whatever else the call did. -/
lemma requestOTP_requestLimiter (dir : String → Option Resident) (hash : String → String)
    (pepper otp token : String) (now : Nat) (st : AuthState) (raw : String) :
    (requestOTP dir hash pepper otp token now st raw).2.requestLimiter =
      (st.requestLimiter.consume now).2 := by
  rcases hc : st.requestLimiter.consume now with ⟨res, rl⟩
  cases res with
  | blocked ls => rw [requestOTP_blocked dir hash pepper otp token now st raw ls rl hc]
  | allowed r =>
    rw [requestOTP_allowed dir hash pepper otp token now st raw r rl hc,
        requestCore_requestLimiter]

/-- A `requestOTP` call whose limiter consume allowed it never reports
`RateLimited`. -/
lemma requestOTP_not_rateLimited (dir : String → Option Resident) (hash : String → String)
    (pepper otp token : String) (now : Nat) (st : AuthState) (raw : String)
    (r : Nat) (rl : RateLimiter)
    (hc : st.requestLimiter.consume now = (.allowed r, rl)) :
    ∀ ls, (requestOTP dir hash pepper otp token now st raw).1 ≠
      .error (.rateLimited ls) := by
  intro ls
  rw [requestOTP_allowed dir hash pepper otp token now st raw r rl hc]
  rcases hv : validateAadhar (stripWS raw) with _ | msg
  · rcases hd : dir (stripWS raw) with _ | res
    · rw [requestCore_unknown dir hash pepper otp token now _ _ hv hd]
      simp
    · rw [requestCore_known dir hash pepper otp token now _ _ res hv hd]
      simp
  · rw [requestCore_invalid dir hash pepper otp token now _ _ msg hv]
    simp

-- ─── Verify congruence (only challenge and verify limiter matter) ───────────

/-- The result of `verifyCore` depends on the state only through the pending
challenge. -/
lemma verifyCore_fst_congr (hash : String → String) (tok : String) (now : Nat)
    (st1 st2 : AuthState) (otp tx : String)
    (hp : st1.pendingChallenge = st2.pendingChallenge) :
    (verifyCore hash tok now st1 otp tx).1 = (verifyCore hash tok now st2 otp tx).1 := by
  rcases hpc : st2.pendingChallenge with _ | ch
  · rw [verifyCore_noChallenge hash tok now st1 otp tx (hp.trans hpc),
        verifyCore_noChallenge hash tok now st2 otp tx hpc]
  · have hp1 : st1.pendingChallenge = some ch := hp.trans hpc
    by_cases hx : ch.expiresAt < now
    · rw [verifyCore_expired hash tok now st1 ch otp tx hp1 hx,
          verifyCore_expired hash tok now st2 ch otp tx hpc hx]
    · by_cases htx : ch.transactionId = tx
      · rcases hfmt : validateOTP otp with _ | msg
        · by_cases hatt : ch.attempts < 3
          · by_cases hh : hash (otp ++ tx) = ch.otpHash
            · rw [verifyCore_success hash tok now st1 ch otp tx hp1 hx htx hfmt hatt hh,
                  verifyCore_success hash tok now st2 ch otp tx hpc hx htx hfmt hatt hh]
            · rw [verifyCore_incorrect hash tok now st1 ch otp tx hp1 hx htx hfmt hatt hh,
                  verifyCore_incorrect hash tok now st2 ch otp tx hpc hx htx hfmt hatt hh]
          · rw [verifyCore_exhausted hash tok now st1 ch otp tx hp1 hx htx hfmt (by omega),
                verifyCore_exhausted hash tok now st2 ch otp tx hpc hx htx hfmt (by omega)]
        · rw [verifyCore_badFormat hash tok now st1 ch otp tx msg hp1 hx htx hfmt,
              verifyCore_badFormat hash tok now st2 ch otp tx msg hpc hx htx hfmt]
      · rw [verifyCore_mismatch hash tok now st1 ch otp tx hp1 hx htx,
            verifyCore_mismatch hash tok now st2 ch otp tx hpc hx htx]

/-- The result of `verifyOTP` depends on the state only through the pending
challenge and the verify limiter. -/
lemma verifyOTP_fst_congr (hash : String → String) (tok : String) (now : Nat)
    (st1 st2 : AuthState) (otp tx : String)
    (hp : st1.pendingChallenge = st2.pendingChallenge)
    (hl : st1.verifyLimiter = st2.verifyLimiter) :
    (verifyOTP hash tok now st1 otp tx).1 = (verifyOTP hash tok now st2 otp tx).1 := by
  unfold verifyOTP
  rw [hl]
  rcases hc : st2.verifyLimiter.consume now with ⟨res, vl⟩
  cases res with
  | blocked ls => rfl
  | allowed r => exact verifyCore_fst_congr hash tok now _ _ otp tx hp

-- ─── C7: request-phase rate limiting scenario ───────────────────────────────

/-- Counterexample to claim C7 as stated: with the fresh request limiter
(3 attempts / 10 minutes), already the 3rd `requestOTP` call within the
window fails with `RateLimited` (600 s) — it does not pass the limiter, so
the scenario cannot reach a 4th-call failure with three passing calls. -/
theorem requestOTP_rate_limit_counterexample :
    (requestOTP demoResidents (fun s => s) "p" "123456" "0123456789abcdefX" 0
      freshAuthState "499118665246").1 =
      .ok { maskedMobile := "98XXXXXX10", transactionId := "0123456789abcdef",
            demo := true, hint := none, demoOTP := some "123456" }
    ∧ (requestOTP demoResidents (fun s => s) "p" "123456" "0123456789abcdefX" 0
        (requestOTP demoResidents (fun s => s) "p" "123456" "0123456789abcdefX" 0
          freshAuthState "499118665246").2 "499118665246").1 =
      .ok { maskedMobile := "98XXXXXX10", transactionId := "0123456789abcdef",
            demo := true, hint := none, demoOTP := some "123456" }
    ∧ (requestOTP demoResidents (fun s => s) "p" "123456" "0123456789abcdefX" 0
        (requestOTP demoResidents (fun s => s) "p" "123456" "0123456789abcdefX" 0
          (requestOTP demoResidents (fun s => s) "p" "123456" "0123456789abcdefX" 0
            freshAuthState "499118665246").2 "499118665246").2 "499118665246").1 =
      .error (.rateLimited 600) :=
  ⟨rfl, rfl, rfl⟩

/-- Claim C7's theorem (amended). Starting from a fresh request-phase limiter
(3 attempts / 10 minutes), the first two `requestOTP` calls within the
window pass the rate limiter (they can only fail for non-rate-limit
reasons), and already the 3rd call within the window fails with
`RateLimited` carrying the full window, a strictly positive 600 seconds. -/
theorem requestOTP_rate_limit_scenario
    (dir1 dir2 dir3 : String → Option Resident) (hash1 hash2 hash3 : String → String)
    (p1 p2 p3 o1 o2 o3 k1 k2 k3 raw1 raw2 raw3 : String)
    (pc : Option Challenge) (vl : RateLimiter) (t1 t2 t3 : Nat)
    (h21 : t2 - t1 < 600000) (h31 : t3 - t1 < 600000) (h32 : t3 - t2 < 600000) :
    (∀ ls, (requestOTP dir1 hash1 p1 o1 k1 t1
        ⟨pc, mkRateLimiter 3 600000, vl⟩ raw1).1 ≠ .error (.rateLimited ls))
    ∧ (∀ ls, (requestOTP dir2 hash2 p2 o2 k2 t2
        (requestOTP dir1 hash1 p1 o1 k1 t1 ⟨pc, mkRateLimiter 3 600000, vl⟩ raw1).2
        raw2).1 ≠ .error (.rateLimited ls))
    ∧ (requestOTP dir3 hash3 p3 o3 k3 t3
        (requestOTP dir2 hash2 p2 o2 k2 t2
          (requestOTP dir1 hash1 p1 o1 k1 t1 ⟨pc, mkRateLimiter 3 600000, vl⟩ raw1).2
          raw2).2 raw3).1 = .error (.rateLimited 600)
    ∧ 0 < 600 := by
  have hc1 : (mkRateLimiter 3 600000).consume t1 =
      (.allowed 2, ⟨3, 600000, [t1], none⟩) := by
    have h := (consumeBody_spec 3 600000 [] none t1).2
      (by simp only [List.filter_nil, List.length_nil]; omega)
    simpa using h
  have hrl1 : (requestOTP dir1 hash1 p1 o1 k1 t1
      ⟨pc, mkRateLimiter 3 600000, vl⟩ raw1).2.requestLimiter =
      ⟨3, 600000, [t1], none⟩ := by
    rw [requestOTP_requestLimiter]
    rw [hc1]
  have hf1 : [t1].filter (fun tm => decide (t2 - tm < 600000)) = [t1] := by
    simp [h21]
  have hc2 : (requestOTP dir1 hash1 p1 o1 k1 t1
      ⟨pc, mkRateLimiter 3 600000, vl⟩ raw1).2.requestLimiter.consume t2 =
      (.allowed 1, ⟨3, 600000, [t1, t2], none⟩) := by
    rw [hrl1]
    have h := (consumeBody_spec 3 600000 [t1] none t2).2
      (by rw [hf1]; simp)
    rw [hf1] at h
    simpa using h
  have hrl2 : (requestOTP dir2 hash2 p2 o2 k2 t2
      (requestOTP dir1 hash1 p1 o1 k1 t1 ⟨pc, mkRateLimiter 3 600000, vl⟩ raw1).2
      raw2).2.requestLimiter = ⟨3, 600000, [t1, t2], none⟩ := by
    rw [requestOTP_requestLimiter]
    rw [hc2]
  have hf2 : [t1, t2].filter (fun tm => decide (t3 - tm < 600000)) = [t1, t2] := by
    simp [h31, h32]
  have hc3 : (requestOTP dir2 hash2 p2 o2 k2 t2
      (requestOTP dir1 hash1 p1 o1 k1 t1 ⟨pc, mkRateLimiter 3 600000, vl⟩ raw1).2
      raw2).2.requestLimiter.consume t3 =
      (.blocked 600, ⟨3, 600000, [], some (t3 + 600000)⟩) := by
    rw [hrl2]
    have h := (consumeBody_spec 3 600000 [t1, t2] none t3).1
      (by rw [hf2]; simp)
    have hceil : ceilDiv 600000 1000 = 600 := by norm_num [ceilDiv]
    rw [hceil] at h
    simpa using h
  refine ⟨?_, ?_, ?_, by omega⟩
  · exact requestOTP_not_rateLimited dir1 hash1 p1 o1 k1 t1 _ raw1 2
      ⟨3, 600000, [t1], none⟩ hc1
  · exact requestOTP_not_rateLimited dir2 hash2 p2 o2 k2 t2 _ raw2 1
      ⟨3, 600000, [t1, t2], none⟩ hc2
  · rw [requestOTP_blocked dir3 hash3 p3 o3 k3 t3 _ raw3 600
      ⟨3, 600000, [], some (t3 + 600000)⟩ hc3]

/-- Witness for claim C7's theorem: three concrete calls at times 0, 1, 2 on
a fresh state; the third is rate-limited for 600 seconds. -/
theorem requestOTP_rate_limit_scenario_witness :
    (requestOTP demoResidents (fun s => s) "p" "111111" "tokC7" 2
      (requestOTP demoResidents (fun s => s) "p" "111111" "tokC7" 1
        (requestOTP demoResidents (fun s => s) "p" "111111" "tokC7" 0
          ⟨none, mkRateLimiter 3 600000, mkRateLimiter 5 1800000⟩ "499118665246").2
        "499118665246").2 "499118665246").1 = .error (.rateLimited 600) := by
  have h := requestOTP_rate_limit_scenario demoResidents demoResidents demoResidents
    (fun s => s) (fun s => s) (fun s => s) "p" "p" "p" "111111" "111111" "111111"
    "tokC7" "tokC7" "tokC7" "499118665246" "499118665246" "499118665246"
    none (mkRateLimiter 5 1800000) 0 1 2 (by decide) (by decide) (by decide)
  exact h.2.2.1

-- ─── C8: the all-ones id ────────────────────────────────────────────────────

/-- Counterexample to claim C8 as stated: on a fresh state, `requestOTP` with
`"111111111111"` fails with the first-digit format message
`"Invalid Aadhar number"` — not the checksum error — and the request-phase
limiter HAS been consumed by the call (an attempt at time 0 is recorded). -/
theorem requestOTP_all_ones_counterexample :
    (requestOTP demoResidents (fun s => s) "p" "123456" "tok" 0 freshAuthState
      "111111111111").1 = .error (.validation "Invalid Aadhar number")
    ∧ (requestOTP demoResidents (fun s => s) "p" "123456" "tok" 0 freshAuthState
      "111111111111").2.requestLimiter.attempts = [0]
    ∧ freshAuthState.requestLimiter.attempts = [] :=
  ⟨rfl, rfl, rfl⟩

/-- Claim C8's theorem (amended). A request with id `"111111111111"` fails
with the first-digit format error `"Invalid Aadhar number"` (not the
checksum error); the request-phase rate limiter is consumed before
validation runs (the post-state is exactly the consumed state), but the
identity directory is never involved: the whole call is independent of the
directory, and no challenge is stored. -/
theorem requestOTP_all_ones (dir dir2 : String → Option Resident)
    (hash : String → String) (pepper otp token : String) (now : Nat) (st : AuthState)
    (hallow : ((st.requestLimiter.consume now).1).isAllowed = true) :
    (requestOTP dir hash pepper otp token now st "111111111111").1 =
      .error (.validation "Invalid Aadhar number")
    ∧ (requestOTP dir hash pepper otp token now st "111111111111").2 =
      { st with requestLimiter := (st.requestLimiter.consume now).2 }
    ∧ requestOTP dir hash pepper otp token now st "111111111111" =
      requestOTP dir2 hash pepper otp token now st "111111111111" := by
  obtain ⟨r, rl, hc⟩ := consume_allowed_elim _ _ hallow
  have hv : validateAadhar (stripWS "111111111111") = some "Invalid Aadhar number" := by
    decide
  have h1 := requestOTP_allowed dir hash pepper otp token now st "111111111111" r rl hc
  have h2 := requestOTP_allowed dir2 hash pepper otp token now st "111111111111" r rl hc
  rw [h1, h2, requestCore_invalid dir hash pepper otp token now _ _ _ hv,
      requestCore_invalid dir2 hash pepper otp token now _ _ _ hv]
  refine ⟨rfl, ?_, rfl⟩
  rw [hc]

/-- Witness for claim C8's theorem at a concrete fresh state. -/
theorem requestOTP_all_ones_witness :
    (requestOTP demoResidents (fun s => s) "pep" "123456" "tok" 5 freshAuthState
      "111111111111").1 = .error (.validation "Invalid Aadhar number") := by
  have h := requestOTP_all_ones demoResidents demoResidents (fun s => s) "pep"
    "123456" "tok" 5 freshAuthState (by decide)
  exact h.1

-- ─── C9: descriptor shape for unregistered ids ──────────────────────────────

/-- Counterexample to claim C9 as stated: the descriptor for the
checksum-valid unregistered id `"999999999999"` and the descriptor for the
registered id `"499118665246"` have different key sets — the unregistered
branch carries `hint` and lacks `demoOTP`, so the returned value reveals
whether the id is registered. -/
theorem requestOTP_descriptor_shape_counterexample :
    (requestOTP demoResidents (fun s => s) "p" "111222" "0123456789abcdefX" 0
      freshAuthState "999999999999").1 =
      .ok { maskedMobile := "XXXXXX0000", transactionId := "0123456789abcdef",
            demo := true, hint := some "Use demo Aadhar: 4991 1866 5246", demoOTP := none }
    ∧ (requestOTP demoResidents (fun s => s) "p" "111222" "0123456789abcdefX" 0
        freshAuthState "499118665246").1 =
      .ok { maskedMobile := "98XXXXXX10", transactionId := "0123456789abcdef",
            demo := true, hint := none, demoOTP := some "111222" }
    ∧ Descriptor.fieldNames
        { maskedMobile := "XXXXXX0000", transactionId := "0123456789abcdef",
          demo := true, hint := some "Use demo Aadhar: 4991 1866 5246", demoOTP := none } ≠
      Descriptor.fieldNames
        { maskedMobile := "98XXXXXX10", transactionId := "0123456789abcdef",
          demo := true, hint := none, demoOTP := some "111222" } := by
  refine ⟨rfl, rfl, ?_⟩
  decide

/-- Claim C9's theorem (amended). For a checksum-valid unregistered id (with
the limiter allowing), `requestOTP` still generates a `transactionId` (the
first 16 characters of the fresh token) and returns a descriptor with the
same `maskedMobile`/`transactionId`/`demo` fields as the registered
branch; but the key sets differ — the unregistered branch carries a `hint`
key and no `demoOTP` key, the registered branch the reverse — so the
descriptor's shape does reveal whether the id is registered. -/
theorem requestOTP_unknown_descriptor (dir : String → Option Resident)
    (hash : String → String) (pepper otp token : String) (now : Nat)
    (st : AuthState) (raw : String)
    (hallow : ((st.requestLimiter.consume now).1).isAllowed = true)
    (hvalid : validateAadhar (stripWS raw) = none) :
    (dir (stripWS raw) = none →
      (requestOTP dir hash pepper otp token now st raw).1 =
        .ok { maskedMobile := "XXXXXX0000",
              transactionId := String.mk (token.data.take 16), demo := true,
              hint := some "Use demo Aadhar: 4991 1866 5246", demoOTP := none })
    ∧ (∀ res, dir (stripWS raw) = some res →
      (requestOTP dir hash pepper otp token now st raw).1 =
        .ok { maskedMobile := maskMobile res.mobile,
              transactionId := String.mk (token.data.take 16), demo := true,
              hint := none, demoOTP := some otp })
    ∧ (∀ d1 d2 : Descriptor, d1.hint.isSome = true → d1.demoOTP = none →
        d2.hint = none → d2.demoOTP.isSome = true →
        Descriptor.fieldNames d1 ≠ Descriptor.fieldNames d2) := by
  obtain ⟨r, rl, hc⟩ := consume_allowed_elim _ _ hallow
  have hreq := requestOTP_allowed dir hash pepper otp token now st raw r rl hc
  refine ⟨?_, ?_, ?_⟩
  · intro hd
    rw [hreq, requestCore_unknown dir hash pepper otp token now _ _ hvalid hd]
  · intro res hd
    rw [hreq, requestCore_known dir hash pepper otp token now _ _ res hvalid hd]
  · intro d1 d2 h1 h2 h3 h4
    unfold Descriptor.fieldNames
    rw [h2, h3]
    simp [h1, h4]

/-- Witness for claim C9's theorem: the concrete unregistered Verhoeff-valid
id `"999999999999"` yields the anti-enumeration descriptor with the
transaction id cut from the token. -/
theorem requestOTP_unknown_descriptor_witness :
    (requestOTP demoResidents (fun s => s) "p" "111222" "0123456789abcdefX" 0
      freshAuthState "999999999999").1 =
      .ok { maskedMobile := "XXXXXX0000", transactionId := "0123456789abcdef",
            demo := true, hint := some "Use demo Aadhar: 4991 1866 5246",
            demoOTP := none } := by
  have h := requestOTP_unknown_descriptor demoResidents (fun s => s) "p" "111222"
    "0123456789abcdefX" 0 freshAuthState "999999999999" (by decide) (by decide)
  exact h.1 rfl

-- ─── C10: unknown-id requests leave the pending challenge untouched ─────────

/-- Claim C10's theorem. With the request limiter allowing and a
checksum-valid id: if the id is unregistered, the call leaves the pending
challenge (and the verify limiter) exactly as before — so any later
`verifyOTP` call behaves on the post-state exactly as it would have on the
pre-state — while for a registered id the stored challenge is replaced by
the freshly generated one. -/
theorem requestOTP_unknown_frame (dir : String → Option Resident)
    (hash hash2 : String → String) (pepper otp token tok2 : String)
    (now now2 : Nat) (st : AuthState) (raw o2 tx2 : String)
    (hallow : ((st.requestLimiter.consume now).1).isAllowed = true)
    (hvalid : validateAadhar (stripWS raw) = none) :
    (dir (stripWS raw) = none →
      (requestOTP dir hash pepper otp token now st raw).2.pendingChallenge =
        st.pendingChallenge
      ∧ (requestOTP dir hash pepper otp token now st raw).2.verifyLimiter =
        st.verifyLimiter
      ∧ (verifyOTP hash2 tok2 now2
          (requestOTP dir hash pepper otp token now st raw).2 o2 tx2).1 =
        (verifyOTP hash2 tok2 now2 st o2 tx2).1)
    ∧ (∀ res, dir (stripWS raw) = some res →
      (requestOTP dir hash pepper otp token now st raw).2.pendingChallenge =
        some { aadharHash := hash (stripWS raw ++ pepper),
               otpHash := hash (otp ++ String.mk (token.data.take 16)),
               transactionId := String.mk (token.data.take 16),
               expiresAt := now + 10 * 60 * 1000, resident := res, attempts := 0 }) := by
  obtain ⟨r, rl, hc⟩ := consume_allowed_elim _ _ hallow
  have hreq := requestOTP_allowed dir hash pepper otp token now st raw r rl hc
  constructor
  · intro hd
    rw [hreq, requestCore_unknown dir hash pepper otp token now _ _ hvalid hd]
    refine ⟨rfl, rfl, ?_⟩
    exact verifyOTP_fst_congr hash2 tok2 now2 _ st o2 tx2 rfl rfl
  · intro res hd
    rw [hreq, requestCore_known dir hash pepper otp token now _ _ res hvalid hd]

/-- Witness state for claim C10: a pending challenge that must survive an
unregistered request. -/
def stC10 : AuthState :=
  { pendingChallenge := some
      { aadharHash := "a", otpHash := "654321tx", transactionId := "tx",
        expiresAt := 100, resident := ⟨"R", "9876543210", "P", "D"⟩, attempts := 1 },
    requestLimiter := mkRateLimiter 3 600000,
    verifyLimiter := mkRateLimiter 5 1800000 }

/-- Witness for claim C10's theorem: a request for the unregistered
Verhoeff-valid id `"999999999999"` leaves the stored challenge in place. -/
theorem requestOTP_unknown_frame_witness :
    (requestOTP demoResidents (fun s => s) "p" "111222" "tok" 0 stC10
      "999999999999").2.pendingChallenge = stC10.pendingChallenge := by
  have h := requestOTP_unknown_frame demoResidents (fun s => s) (fun s => s) "p"
    "111222" "tok" "tok2" 0 7 stC10 "999999999999" "654321" "tx"
    (by decide) (by decide)
  exact (h.1 rfl).1
